import Mathlib

/-!
# The nREPL native agent (libnrepl/src/nrepl_agent.c)

A shallow embedding of the two functions of the agent:

* `Agent_OnAttach`, the attach handler, which obtains the JVMTI environment
  from the virtual machine and requests the `can_signal_thread` capability;
* `Java_nrepl_JvmtiAgent_stopThread`, the exported thread-stop operation.

The C file keeps one piece of state, the static pointer `jvmti_env`.  It is
an explicit record here (`Agent`).  Everything the functions do to the outside
world (lines written to stdout and stderr, calls through the JNI and JVMTI
function tables) is recorded, in program order, in a list of `Event`s.  A use
of `(*jvmti_env)->...` while `jvmti_env` is NULL is a `Fault.nullDereference`.
-/

set_option linter.unusedVariables false

namespace NreplAgent

/-! ## Types and constants of the JNI and JVMTI headers -/

/-- The C type `jint`. No arithmetic is done on it, only comparison. -/
abbrev jint := Int

/-- The C enumeration `jvmtiError`, printed with `%d`. -/
abbrev jvmtiError := Int

/-- An opaque thread reference. -/
abbrev jthread := Nat

/-- An opaque object reference (the throwable). -/
abbrev jobject := Nat

/-- An opaque class reference. -/
abbrev jclass := Nat

/-- The `JNIEnv*` argument of a native method; the agent never uses it. -/
abbrev JNIEnv := Nat

/-- Modelled from the spec: `jni.h` is not among the sources; the spec fixes
the attach status convention as "0 = success, non-zero = failure", and
`JNI_OK` is the success status. -/
def JNI_OK : jint := 0

/-- Modelled from the spec: `jni.h` is not among the sources; `JNI_ERR` is the
failure status, non-zero by the spec's convention (the header's value is -1). -/
def JNI_ERR : jint := -1

/-- Modelled from the spec: `jvmti.h` is not among the sources; the code
compares every interface result with this "no error" value (0 in the header). -/
def JVMTI_ERROR_NONE : jvmtiError := 0

/-- Modelled from the spec: `jvmti.h` is not among the sources; the "specific
interface version" the attach handler requests (0x30010200 in the header).
No theorem depends on its value. -/
def JVMTI_VERSION_1_2 : jint := 0x30010200

/-- The bit-field record `jvmtiCapabilities`: `jvmti.h` is not among the
sources, so the record is a map from the name of a capability field to its
bit, whatever the list of fields is. -/
abbrev jvmtiCapabilities := String → Bool

/-- The initialiser `= {0}`: every capability bit is clear. -/
def jvmtiCapabilities.zero : jvmtiCapabilities := fun _ => false

/-- The assignment `capabilities.field = 1`. -/
def jvmtiCapabilities.set (caps : jvmtiCapabilities) (field : String) :
    jvmtiCapabilities :=
  fun f => if f = field then true else caps f

/-- The record `jvmtiThreadInfo` that `GetThreadInfo` fills in; the agent reads
only its `name`. -/
structure jvmtiThreadInfo where
  name : String

/-- The JVMTI environment behind a `jvmtiEnv*`: the three entries of its
function table that the agent calls.  `GetThreadInfo` returns its error code
together with what it stored through `&threadInfo`. -/
structure jvmtiEnv where
  GetThreadInfo : jthread → jvmtiError × jvmtiThreadInfo
  StopThread : jthread → jobject → jvmtiError
  AddCapabilities : jvmtiCapabilities → jvmtiError

/-- The virtual machine behind a `JavaVM*`.  `GetEnv` is called with the
address of a pointer cell and a version: it sees the cell's current content
(`none` is NULL) and returns its status together with the cell's new content. -/
structure JavaVM where
  GetEnv : Option jvmtiEnv → jint → jint × Option jvmtiEnv

/-! ## State, events and runs -/

/-- The state of the agent: `static jvmtiEnv* jvmti_env;`. -/
structure Agent where
  jvmti_env : Option jvmtiEnv

/-- The state when the library is loaded: a static pointer starts as NULL. -/
def Agent.initial : Agent := { jvmti_env := none }

/-- What a function does to the outside world, in program order. -/
inductive Event where
  | stdout (text : String)
  | stderr (text : String)
  | GetEnv (version : jint)
  | GetThreadInfo (thread : jthread)
  | StopThread (thread : jthread) (throwable : jobject)
  | AddCapabilities (capabilities : jvmtiCapabilities)

/-- The way a call can fail to return. -/
inductive Fault where
  | nullDereference

/-- One call of a function of the agent: the events it produced, and either the
fault that ended it or its return value with the state it left. -/
structure Run (α : Type) where
  trace : List Event
  outcome : Except Fault (α × Agent)

/-! ## The two functions -/

/-- The line `printf("Error getting thread info: %d\n", err)`. -/
def threadInfoErrorLine (err : jvmtiError) : String :=
  "Error getting thread info: " ++ toString err ++ "\n"

/-- The line `printf("Stopping thread \"%s\" using JVMTI...\n", threadInfo.name)`. -/
def stoppingLine (name : String) : String :=
  "Stopping thread \x22" ++ name ++ "\x22 using JVMTI...\n"

/-- The line `printf("Error stopping thread: %d\n", err)`. -/
def stopErrorLine (err : jvmtiError) : String :=
  "Error stopping thread: " ++ toString err ++ "\n"

/-- The exported native method `Java_nrepl_JvmtiAgent_stopThread`
(nrepl_agent.c, lines 10-28).  Its return type is `void`. -/
def Java_nrepl_JvmtiAgent_stopThread (s : Agent) (env : JNIEnv) (cls : jclass)
    (thread : jthread) (throwable : jobject) : Run Unit :=
  match s.jvmti_env with
  | none => { trace := [], outcome := .error .nullDereference }
  | some jvmti =>
    let r := jvmti.GetThreadInfo thread
    let err := r.1
    let threadInfo := r.2
    if err ≠ JVMTI_ERROR_NONE then
      { trace := [.GetThreadInfo thread, .stdout (threadInfoErrorLine err)],
        outcome := .ok ((), s) }
    else
      let err := jvmti.StopThread thread throwable
      if err ≠ JVMTI_ERROR_NONE then
        { trace := [.GetThreadInfo thread, .stdout (stoppingLine threadInfo.name),
                    .StopThread thread throwable, .stdout (stopErrorLine err)],
          outcome := .ok ((), s) }
      else
        { trace := [.GetThreadInfo thread, .stdout (stoppingLine threadInfo.name),
                    .StopThread thread throwable],
          outcome := .ok ((), s) }

/-- The capability record the attach handler builds (lines 41-42). -/
def requestedCapabilities : jvmtiCapabilities :=
  jvmtiCapabilities.zero.set "can_signal_thread"

/-- The attach handler `Agent_OnAttach` (nrepl_agent.c, lines 30-46).  `GetEnv`
is handed `&jvmti_env`, so the state after the call holds what it stored. -/
def Agent_OnAttach (s : Agent) (vm : JavaVM) (options : String) (reserved : Nat) :
    Run jint :=
  let r := vm.GetEnv s.jvmti_env JVMTI_VERSION_1_2
  let res := r.1
  let s1 : Agent := { jvmti_env := r.2 }
  if res ≠ JNI_OK then
    { trace := [.stdout "nREPL native agent loaded\n", .GetEnv JVMTI_VERSION_1_2,
                .stderr "Failed to get JVMTI environment\n"],
      outcome := .ok (JNI_ERR, s1) }
  else
    match s1.jvmti_env with
    | none =>
      { trace := [.stdout "nREPL native agent loaded\n", .GetEnv JVMTI_VERSION_1_2],
        outcome := .error .nullDereference }
    | some jvmti =>
      let capabilities := requestedCapabilities
      let _ignored := jvmti.AddCapabilities capabilities
      { trace := [.stdout "nREPL native agent loaded\n", .GetEnv JVMTI_VERSION_1_2,
                  .AddCapabilities capabilities],
        outcome := .ok (JNI_OK, s1) }

/-! ## Observations on a trace -/

/-- The diagnostic lines of a trace (stdout and stderr), in order. -/
def diagnostics : List Event → List String
  | [] => []
  | .stdout text :: rest => text :: diagnostics rest
  | .stderr text :: rest => text :: diagnostics rest
  | _ :: rest => diagnostics rest

/-- The threads whose metadata a trace asked for. -/
def threadInfoCalls : List Event → List jthread
  | [] => []
  | .GetThreadInfo thread :: rest => thread :: threadInfoCalls rest
  | _ :: rest => threadInfoCalls rest

/-- The termination requests a trace submitted, with their arguments. -/
def stopThreadCalls : List Event → List (jthread × jobject)
  | [] => []
  | .StopThread thread throwable :: rest => (thread, throwable) :: stopThreadCalls rest
  | _ :: rest => stopThreadCalls rest

/-- The capability records a trace submitted. -/
def capabilityRequests : List Event → List jvmtiCapabilities
  | [] => []
  | .AddCapabilities caps :: rest => caps :: capabilityRequests rest
  | _ :: rest => capabilityRequests rest

/-- A line contains a text when the text is a contiguous part of it. -/
def containsText (line part : String) : Prop :=
  part.data <:+: line.data

/-- A line is an "about to stop" line when it starts with `Stopping thread`. -/
def isAboutToStop (line : String) : Bool :=
  decide ("Stopping thread".data <+: line.data)

/-! ## Sample interfaces, used to instantiate the theorems -/

/-- A JVMTI environment whose three functions answer with fixed codes. -/
def fixedEnv (infoErr : jvmtiError) (name : String) (stopErr capErr : jvmtiError) :
    jvmtiEnv :=
  { GetThreadInfo := fun _ => (infoErr, { name := name }),
    StopThread := fun _ _ => stopErr,
    AddCapabilities := fun _ => capErr }

/-- A virtual machine that hands out the given environment. -/
def grantingVM (jvmti : jvmtiEnv) : JavaVM :=
  { GetEnv := fun _ _ => (JNI_OK, some jvmti) }

/-- A virtual machine that refuses with the given status and stores NULL. -/
def refusingVM (status : jint) : JavaVM :=
  { GetEnv := fun _ _ => (status, none) }

/-! ## Lemmas on the diagnostic lines -/

theorem containsText_middle (a b c : String) : containsText (a ++ b ++ c) b := by
  unfold containsText
  exact ⟨a.data, c.data, by simp⟩

theorem isAboutToStop_stoppingLine (name : String) :
    isAboutToStop (stoppingLine name) = true := by
  unfold isAboutToStop stoppingLine
  simp only [decide_eq_true_eq, String.data_append]
  exact ⟨[' ', '\x22'] ++ name.data ++ "\x22 using JVMTI...\n".data, by simp⟩

theorem isAboutToStop_threadInfoErrorLine (err : jvmtiError) :
    isAboutToStop (threadInfoErrorLine err) = false := by
  unfold isAboutToStop threadInfoErrorLine
  simp only [decide_eq_false_iff_not, String.data_append]
  rintro ⟨t, ht⟩
  simp at ht

theorem isAboutToStop_stopErrorLine (err : jvmtiError) :
    isAboutToStop (stopErrorLine err) = false := by
  unfold isAboutToStop stopErrorLine
  simp only [decide_eq_false_iff_not, String.data_append]
  rintro ⟨t, ht⟩
  simp at ht

/-! ## The thread-stop operation -/

/-- C1 (as stated, refuted): after an attach that the virtual machine refuses
(status -3, NULL stored), the handle is unset, and a call of the thread-stop
operation does not short-circuit: it ends in a null-pointer fault. -/
theorem stopThread_after_failed_attach_faults :
    (Agent_OnAttach Agent.initial (refusingVM (-3)) "" 0).outcome
        = .ok (JNI_ERR, { jvmti_env := none }) ∧
      (Java_nrepl_JvmtiAgent_stopThread { jvmti_env := none } 0 0 1 2).outcome
        = .error .nullDereference ∧
      ¬ ∃ s, (Java_nrepl_JvmtiAgent_stopThread { jvmti_env := none } 0 0 1 2).outcome
        = .ok ((), s) := by
  refine ⟨rfl, rfl, ?_⟩
  rintro ⟨s, hs⟩
  simp [Java_nrepl_JvmtiAgent_stopThread] at hs

/-- C1 (amended): with the handle unset, every call of the thread-stop
operation, for every thread reference and cause, makes no GetThreadInfo and no
StopThread call and emits no diagnostic, but it does dereference the unset
handle: the call ends in a null-pointer fault instead of returning. -/
theorem stopThread_unset_handle (s : Agent) (env : JNIEnv) (cls : jclass)
    (thread : jthread) (throwable : jobject) (hunset : s.jvmti_env = none) :
    threadInfoCalls (Java_nrepl_JvmtiAgent_stopThread s env cls thread throwable).trace = [] ∧
      stopThreadCalls (Java_nrepl_JvmtiAgent_stopThread s env cls thread throwable).trace = [] ∧
      diagnostics (Java_nrepl_JvmtiAgent_stopThread s env cls thread throwable).trace = [] ∧
      (Java_nrepl_JvmtiAgent_stopThread s env cls thread throwable).outcome
        = .error .nullDereference := by
  simp [Java_nrepl_JvmtiAgent_stopThread, hunset, threadInfoCalls, stopThreadCalls,
    diagnostics]

theorem stopThread_unset_handle_witness :
    Agent.initial.jvmti_env = none ∧
      threadInfoCalls (Java_nrepl_JvmtiAgent_stopThread Agent.initial 0 0 7 9).trace = [] ∧
      stopThreadCalls (Java_nrepl_JvmtiAgent_stopThread Agent.initial 0 0 7 9).trace = [] ∧
      diagnostics (Java_nrepl_JvmtiAgent_stopThread Agent.initial 0 0 7 9).trace = [] ∧
      (Java_nrepl_JvmtiAgent_stopThread Agent.initial 0 0 7 9).outcome
        = .error .nullDereference :=
  ⟨rfl, stopThread_unset_handle Agent.initial 0 0 7 9 rfl⟩

/-- C2: with an initialised handle, if GetThreadInfo returns an error code
other than JVMTI_ERROR_NONE, the thread-stop operation emits exactly one
diagnostic, that diagnostic contains the numeric error code, no diagnostic is
a "Stopping thread" line, and no StopThread request is submitted. -/
theorem stopThread_threadInfo_error (s : Agent) (jvmti : jvmtiEnv) (env : JNIEnv)
    (cls : jclass) (thread : jthread) (throwable : jobject)
    (hset : s.jvmti_env = some jvmti)
    (herr : (jvmti.GetThreadInfo thread).1 ≠ JVMTI_ERROR_NONE) :
    diagnostics (Java_nrepl_JvmtiAgent_stopThread s env cls thread throwable).trace
        = [threadInfoErrorLine (jvmti.GetThreadInfo thread).1] ∧
      containsText (threadInfoErrorLine (jvmti.GetThreadInfo thread).1)
        (toString (jvmti.GetThreadInfo thread).1) ∧
      (∀ line ∈ diagnostics
          (Java_nrepl_JvmtiAgent_stopThread s env cls thread throwable).trace,
        isAboutToStop line = false) ∧
      stopThreadCalls (Java_nrepl_JvmtiAgent_stopThread s env cls thread throwable).trace
        = [] := by
  have hrun : (Java_nrepl_JvmtiAgent_stopThread s env cls thread throwable).trace
      = [.GetThreadInfo thread, .stdout (threadInfoErrorLine (jvmti.GetThreadInfo thread).1)] := by
    simp [Java_nrepl_JvmtiAgent_stopThread, hset, herr]
  rw [hrun]
  refine ⟨rfl, containsText_middle _ _ _, ?_, rfl⟩
  intro line hline
  simp only [diagnostics, List.mem_singleton] at hline
  rw [hline]
  exact isAboutToStop_threadInfoErrorLine _

theorem stopThread_threadInfo_error_witness :
    (({ jvmti_env := some (fixedEnv 15 "" 0 0) } : Agent).jvmti_env
        = some (fixedEnv 15 "" 0 0)) ∧
      ((fixedEnv 15 "" 0 0).GetThreadInfo 7).1 ≠ JVMTI_ERROR_NONE ∧
      diagnostics (Java_nrepl_JvmtiAgent_stopThread
          { jvmti_env := some (fixedEnv 15 "" 0 0) } 0 0 7 9).trace
        = [threadInfoErrorLine 15] ∧
      stopThreadCalls (Java_nrepl_JvmtiAgent_stopThread
          { jvmti_env := some (fixedEnv 15 "" 0 0) } 0 0 7 9).trace = [] :=
  have h := stopThread_threadInfo_error { jvmti_env := some (fixedEnv 15 "" 0 0) }
    (fixedEnv 15 "" 0 0) 0 0 7 9 rfl (by decide)
  ⟨rfl, by decide, h.1, h.2.2.2⟩

/-- C3: with an initialised handle, if GetThreadInfo succeeds with name n for
thread T, the thread-stop operation emits exactly one "about to stop" line,
that line contains n, exactly one StopThread request is submitted, its
arguments are (T, E) unchanged, and the line comes right before the request. -/
theorem stopThread_announces_then_submits (s : Agent) (jvmti : jvmtiEnv) (env : JNIEnv)
    (cls : jclass) (T : jthread) (E : jobject) (n : String)
    (hset : s.jvmti_env = some jvmti)
    (hinfo : jvmti.GetThreadInfo T = (JVMTI_ERROR_NONE, { name := n })) :
    (diagnostics (Java_nrepl_JvmtiAgent_stopThread s env cls T E).trace).filter
        isAboutToStop = [stoppingLine n] ∧
      containsText (stoppingLine n) n ∧
      stopThreadCalls (Java_nrepl_JvmtiAgent_stopThread s env cls T E).trace = [(T, E)] ∧
      ∃ rest, (Java_nrepl_JvmtiAgent_stopThread s env cls T E).trace
          = .GetThreadInfo T :: .stdout (stoppingLine n) :: .StopThread T E :: rest ∧
        stopThreadCalls rest = [] ∧ (diagnostics rest).filter isAboutToStop = [] := by
  refine ⟨?_, containsText_middle _ _ _, ?_, ?_⟩
  · by_cases hstop : jvmti.StopThread T E = JVMTI_ERROR_NONE <;>
      simp [Java_nrepl_JvmtiAgent_stopThread, hset, hinfo, hstop, diagnostics,
        isAboutToStop_stoppingLine, isAboutToStop_stopErrorLine]
  · by_cases hstop : jvmti.StopThread T E = JVMTI_ERROR_NONE <;>
      simp [Java_nrepl_JvmtiAgent_stopThread, hset, hinfo, hstop, stopThreadCalls]
  · by_cases hstop : jvmti.StopThread T E = JVMTI_ERROR_NONE
    · exact ⟨[], by simp [Java_nrepl_JvmtiAgent_stopThread, hset, hinfo, hstop], rfl, rfl⟩
    · refine ⟨[.stdout (stopErrorLine (jvmti.StopThread T E))],
        by simp [Java_nrepl_JvmtiAgent_stopThread, hset, hinfo, hstop], rfl, ?_⟩
      simp [diagnostics, isAboutToStop_stopErrorLine]

theorem stopThread_announces_then_submits_witness :
    (({ jvmti_env := some (fixedEnv 0 "worker-1" 0 0) } : Agent).jvmti_env
        = some (fixedEnv 0 "worker-1" 0 0)) ∧
      (fixedEnv 0 "worker-1" 0 0).GetThreadInfo 7
        = (JVMTI_ERROR_NONE, { name := "worker-1" }) ∧
      (diagnostics (Java_nrepl_JvmtiAgent_stopThread
          { jvmti_env := some (fixedEnv 0 "worker-1" 0 0) } 0 0 7 9).trace).filter
        isAboutToStop = [stoppingLine "worker-1"] ∧
      stopThreadCalls (Java_nrepl_JvmtiAgent_stopThread
          { jvmti_env := some (fixedEnv 0 "worker-1" 0 0) } 0 0 7 9).trace = [(7, 9)] :=
  have h := stopThread_announces_then_submits
    { jvmti_env := some (fixedEnv 0 "worker-1" 0 0) } (fixedEnv 0 "worker-1" 0 0)
    0 0 7 9 "worker-1" rfl rfl
  ⟨rfl, rfl, h.1, h.2.2.1⟩

/-- C4: with an initialised handle, if GetThreadInfo succeeds and StopThread
returns an error code c other than JVMTI_ERROR_NONE, the diagnostic output of
the thread-stop operation is exactly two lines, in this order: the "about to
stop" line, then one submission-error line, which contains the number c. -/
theorem stopThread_submission_error (s : Agent) (jvmti : jvmtiEnv) (env : JNIEnv)
    (cls : jclass) (thread : jthread) (throwable : jobject) (c : jvmtiError)
    (hset : s.jvmti_env = some jvmti)
    (hinfo : (jvmti.GetThreadInfo thread).1 = JVMTI_ERROR_NONE)
    (hstop : jvmti.StopThread thread throwable = c)
    (hc : c ≠ JVMTI_ERROR_NONE) :
    diagnostics (Java_nrepl_JvmtiAgent_stopThread s env cls thread throwable).trace
        = [stoppingLine (jvmti.GetThreadInfo thread).2.name, stopErrorLine c] ∧
      isAboutToStop (stoppingLine (jvmti.GetThreadInfo thread).2.name) = true ∧
      isAboutToStop (stopErrorLine c) = false ∧
      containsText (stopErrorLine c) (toString c) := by
  refine ⟨?_, isAboutToStop_stoppingLine _, isAboutToStop_stopErrorLine _,
    containsText_middle _ _ _⟩
  simp [Java_nrepl_JvmtiAgent_stopThread, hset, hinfo, hstop, hc, diagnostics]

theorem stopThread_submission_error_witness :
    (({ jvmti_env := some (fixedEnv 0 "worker-1" 13 0) } : Agent).jvmti_env
        = some (fixedEnv 0 "worker-1" 13 0)) ∧
      ((fixedEnv 0 "worker-1" 13 0).GetThreadInfo 7).1 = JVMTI_ERROR_NONE ∧
      (fixedEnv 0 "worker-1" 13 0).StopThread 7 9 = 13 ∧
      (13 : jvmtiError) ≠ JVMTI_ERROR_NONE ∧
      diagnostics (Java_nrepl_JvmtiAgent_stopThread
          { jvmti_env := some (fixedEnv 0 "worker-1" 13 0) } 0 0 7 9).trace
        = [stoppingLine "worker-1", stopErrorLine 13] :=
  have h := stopThread_submission_error
    { jvmti_env := some (fixedEnv 0 "worker-1" 13 0) } (fixedEnv 0 "worker-1" 13 0)
    0 0 7 9 13 rfl rfl rfl (by decide)
  ⟨rfl, rfl, rfl, by decide, h.1⟩

/-- C9: with an initialised handle, for every thread reference, every cause and
every pair of result codes a and b of GetThreadInfo and StopThread, the
thread-stop operation completes normally (no fault), returns no value (the
unit of a void function) and leaves the state as it was: a failure shows in
the diagnostics only. -/
theorem stopThread_fire_and_forget (s : Agent) (jvmti : jvmtiEnv) (env : JNIEnv)
    (cls : jclass) (thread : jthread) (throwable : jobject) (a b : jvmtiError)
    (hset : s.jvmti_env = some jvmti)
    (ha : (jvmti.GetThreadInfo thread).1 = a)
    (hb : jvmti.StopThread thread throwable = b) :
    (Java_nrepl_JvmtiAgent_stopThread s env cls thread throwable).outcome
      = .ok ((), s) := by
  subst ha hb
  simp only [Java_nrepl_JvmtiAgent_stopThread, hset]
  split_ifs <;> rfl

theorem stopThread_fire_and_forget_witness :
    (({ jvmti_env := some (fixedEnv 0 "worker-1" 13 0) } : Agent).jvmti_env
        = some (fixedEnv 0 "worker-1" 13 0)) ∧
      ((fixedEnv 0 "worker-1" 13 0).GetThreadInfo 7).1 = 0 ∧
      (fixedEnv 0 "worker-1" 13 0).StopThread 7 9 = 13 ∧
      (Java_nrepl_JvmtiAgent_stopThread
          { jvmti_env := some (fixedEnv 0 "worker-1" 13 0) } 0 0 7 9).outcome
        = .ok ((), { jvmti_env := some (fixedEnv 0 "worker-1" 13 0) }) :=
  ⟨rfl, rfl, rfl, stopThread_fire_and_forget
    { jvmti_env := some (fixedEnv 0 "worker-1" 13 0) } (fixedEnv 0 "worker-1" 13 0)
    0 0 7 9 0 13 rfl rfl rfl⟩

/-- C10: the thread-stop operation only reads the handle.  For every state,
thread reference, cause and interface behaviour, a call that returns leaves
the state, hence the handle, exactly as it was, and a call returns whenever
the handle is set (it faults only on an unset handle). -/
theorem stopThread_preserves_handle (s : Agent) (env : JNIEnv) (cls : jclass)
    (thread : jthread) (throwable : jobject) :
    match (Java_nrepl_JvmtiAgent_stopThread s env cls thread throwable).outcome with
    | .ok (_, s1) => s1.jvmti_env = s.jvmti_env
    | .error _ => s.jvmti_env = none := by
  cases hs : s.jvmti_env with
  | none => simp [Java_nrepl_JvmtiAgent_stopThread, hs]
  | some jvmti =>
    simp only [Java_nrepl_JvmtiAgent_stopThread, hs]
    split_ifs <;> simp [hs]

/-! ## The attach handler -/

/-- C6: for every attach in which GetEnv returns JNI_OK and hands out an
interface, the handler returns status 0, the process-wide handle is the
interface obtained from the virtual machine, and within that attach exactly
one capability record is submitted, in which can_signal_thread is set and
every other capability is clear. -/
theorem attach_granted (s : Agent) (vm : JavaVM) (jvmti : jvmtiEnv) (options : String)
    (reserved : Nat)
    (hres : vm.GetEnv s.jvmti_env JVMTI_VERSION_1_2 = (JNI_OK, some jvmti)) :
    (Agent_OnAttach s vm options reserved).outcome
        = .ok (0, { jvmti_env := some jvmti }) ∧
      capabilityRequests (Agent_OnAttach s vm options reserved).trace
        = [requestedCapabilities] ∧
      requestedCapabilities "can_signal_thread" = true ∧
      ∀ field, field ≠ "can_signal_thread" → requestedCapabilities field = false := by
  refine ⟨?_, ?_, ?_, ?_⟩
  · simp [Agent_OnAttach, hres, JNI_OK]
  · simp [Agent_OnAttach, hres, capabilityRequests]
  · simp [requestedCapabilities, jvmtiCapabilities.set]
  · intro field hfield
    simp [requestedCapabilities, jvmtiCapabilities.set, jvmtiCapabilities.zero, hfield]

theorem attach_granted_witness :
    (grantingVM (fixedEnv 0 "main" 0 0)).GetEnv Agent.initial.jvmti_env JVMTI_VERSION_1_2
        = (JNI_OK, some (fixedEnv 0 "main" 0 0)) ∧
      (Agent_OnAttach Agent.initial (grantingVM (fixedEnv 0 "main" 0 0)) "" 0).outcome
        = .ok (0, { jvmti_env := some (fixedEnv 0 "main" 0 0) }) ∧
      capabilityRequests
          (Agent_OnAttach Agent.initial (grantingVM (fixedEnv 0 "main" 0 0)) "" 0).trace
        = [requestedCapabilities] :=
  have h := attach_granted Agent.initial (grantingVM (fixedEnv 0 "main" 0 0))
    (fixedEnv 0 "main" 0 0) "" 0 rfl
  ⟨rfl, h.1, h.2.1⟩

/-- C7: the attach status depends only on interface acquisition.  For every
result code c that AddCapabilities returns for the requested record, error
codes included, an attach in which GetEnv returned JNI_OK with an interface
returns status 0 and leaves the handle set to that interface. -/
theorem attach_ignores_capability_result (s : Agent) (vm : JavaVM) (jvmti : jvmtiEnv)
    (options : String) (reserved : Nat) (c : jvmtiError)
    (hres : vm.GetEnv s.jvmti_env JVMTI_VERSION_1_2 = (JNI_OK, some jvmti))
    (hcap : jvmti.AddCapabilities requestedCapabilities = c) :
    (Agent_OnAttach s vm options reserved).outcome
      = .ok (0, { jvmti_env := some jvmti }) := by
  simp [Agent_OnAttach, hres, JNI_OK]

theorem attach_ignores_capability_result_witness :
    (grantingVM (fixedEnv 0 "main" 0 98)).GetEnv Agent.initial.jvmti_env JVMTI_VERSION_1_2
        = (JNI_OK, some (fixedEnv 0 "main" 0 98)) ∧
      (fixedEnv 0 "main" 0 98).AddCapabilities requestedCapabilities = 98 ∧
      (Agent_OnAttach Agent.initial (grantingVM (fixedEnv 0 "main" 0 98)) "" 0).outcome
        = .ok (0, { jvmti_env := some (fixedEnv 0 "main" 0 98) }) :=
  ⟨rfl, rfl, attach_ignores_capability_result Agent.initial
    (grantingVM (fixedEnv 0 "main" 0 98)) (fixedEnv 0 "main" 0 98) "" 0 98 rfl rfl⟩

/-- C8 (as stated, refuted): two successive attaches that both acquire the
interface submit the capability record twice in total, not once. -/
theorem attach_twice_submits_twice_example :
    (Agent_OnAttach Agent.initial (grantingVM (fixedEnv 0 "main" 0 0)) "" 0).outcome
        = .ok (JNI_OK, { jvmti_env := some (fixedEnv 0 "main" 0 0) }) ∧
      (Agent_OnAttach { jvmti_env := some (fixedEnv 0 "main" 0 0) }
          (grantingVM (fixedEnv 0 "main" 0 0)) "" 0).outcome
        = .ok (JNI_OK, { jvmti_env := some (fixedEnv 0 "main" 0 0) }) ∧
      (capabilityRequests
          ((Agent_OnAttach Agent.initial (grantingVM (fixedEnv 0 "main" 0 0)) "" 0).trace
            ++ (Agent_OnAttach { jvmti_env := some (fixedEnv 0 "main" 0 0) }
                (grantingVM (fixedEnv 0 "main" 0 0)) "" 0).trace)).length ≠ 1 := by
  refine ⟨rfl, rfl, ?_⟩
  simp [Agent_OnAttach, grantingVM, JNI_OK, capabilityRequests]

/-- C8 (amended): the attach handler has no once-only guard.  Each attach that
acquires the interface submits the capability record exactly once, so two
successive attaches that both acquire it (the second starting in the state the
first one left) submit the same record twice in total. -/
theorem attach_twice_submits_twice (s : Agent) (vm1 vm2 : JavaVM)
    (jvmti1 jvmti2 : jvmtiEnv) (options1 options2 : String) (reserved1 reserved2 : Nat)
    (hres1 : vm1.GetEnv s.jvmti_env JVMTI_VERSION_1_2 = (JNI_OK, some jvmti1))
    (hres2 : vm2.GetEnv (some jvmti1) JVMTI_VERSION_1_2 = (JNI_OK, some jvmti2)) :
    (Agent_OnAttach s vm1 options1 reserved1).outcome
        = .ok (JNI_OK, { jvmti_env := some jvmti1 }) ∧
      (Agent_OnAttach { jvmti_env := some jvmti1 } vm2 options2 reserved2).outcome
        = .ok (JNI_OK, { jvmti_env := some jvmti2 }) ∧
      capabilityRequests (Agent_OnAttach s vm1 options1 reserved1).trace
        = [requestedCapabilities] ∧
      capabilityRequests
          (Agent_OnAttach { jvmti_env := some jvmti1 } vm2 options2 reserved2).trace
        = [requestedCapabilities] ∧
      capabilityRequests
          ((Agent_OnAttach s vm1 options1 reserved1).trace
            ++ (Agent_OnAttach { jvmti_env := some jvmti1 } vm2 options2 reserved2).trace)
        = [requestedCapabilities, requestedCapabilities] := by
  refine ⟨?_, ?_, ?_, ?_, ?_⟩ <;>
    simp [Agent_OnAttach, hres1, hres2, capabilityRequests]

theorem attach_twice_submits_twice_witness :
    (grantingVM (fixedEnv 0 "main" 0 0)).GetEnv Agent.initial.jvmti_env JVMTI_VERSION_1_2
        = (JNI_OK, some (fixedEnv 0 "main" 0 0)) ∧
      (grantingVM (fixedEnv 0 "main" 0 0)).GetEnv (some (fixedEnv 0 "main" 0 0))
          JVMTI_VERSION_1_2
        = (JNI_OK, some (fixedEnv 0 "main" 0 0)) ∧
      capabilityRequests
          ((Agent_OnAttach Agent.initial (grantingVM (fixedEnv 0 "main" 0 0)) "" 0).trace
            ++ (Agent_OnAttach { jvmti_env := some (fixedEnv 0 "main" 0 0) }
                (grantingVM (fixedEnv 0 "main" 0 0)) "" 0).trace)
        = [requestedCapabilities, requestedCapabilities] :=
  have h := attach_twice_submits_twice Agent.initial (grantingVM (fixedEnv 0 "main" 0 0))
    (grantingVM (fixedEnv 0 "main" 0 0)) (fixedEnv 0 "main" 0 0) (fixedEnv 0 "main" 0 0)
    "" "" 0 0 rfl rfl
  ⟨rfl, rfl, h.2.2.2.2⟩

end NreplAgent
